import Mathlib

/-!
A verification development for the grading core of the Offline-Lab
repository, `backend/services/grading_service.py`: the tabular result
data model, the result comparator `compare_results`, and the grading
orchestrator `grade_submission` with its persistence helper
`save_submission`.

Modelling conventions (shallow embedding of the Python source):

* A pandas `DataFrame` is modelled by `DataFrame`: an ordered list of
  column names plus positional rows; each cell is a `Value` (SQL
  integer, string, or NULL/NaN).  pandas dtypes are not modelled.
* `df.sort_values(by=list(df.columns))` sorts rows lexicographically by
  the tuple of the row's values in the frame's own column order.  It
  raises `TypeError` when a sort-key column mixes incomparable kinds
  (int vs str among its non-null entries), and places missing values
  (NaN/None) last.  `sortRows` models this: mixed kinds in some column
  yield `Except.error` carrying the (abstracted) `TypeError` text,
  otherwise rows are merge-sorted by the total order `rowLe`
  (integers before strings before nulls, nulls last as in pandas).
* Python exceptions are modelled with `Except`; every `try/except`
  block of the source appears as an explicit `match`.
* The SQL runner (`postgres_connection().fetch_df`), the problem lookup
  (`load_problem_with_answer`, file I/O) and the duckdb insert are
  collaborators defined outside `src`; they enter the embedding as
  parameters (`runSql`, `answerSql`, `insertOutcome`).
* The wall-clock measurement `(time.time() - start) * 1000` is modelled
  by the parameter `elapsedMs`: the value the measurement would yield
  at the point the success-path response is built.  The source's error
  path does not perform the measurement and hardcodes `0`.
* Python set reprs inside the column-name mismatch message have
  nondeterministic element order (string hash randomization); the model
  renders the elements in first-occurrence order without braces.
-/

/-- A scalar cell of a query result: SQL integer, string, or NULL. -/
inductive Value where
  | vInt (n : Int)
  | vStr (s : String)
  | vNull
deriving DecidableEq, Repr

/-- A query result as produced by `fetch_df`: ordered column names plus
positional rows (row `r`'s `i`-th entry belongs to column `i`). -/
structure DataFrame where
  columns : List String
  rows : List (List Value)
deriving DecidableEq, Repr

/-- Lexicographic comparison of character lists: Python string `<=`. -/
def charsLe : List Char → List Char → Bool
  | [], _ => true
  | _ :: _, [] => false
  | a :: as, b :: bs => if a = b then charsLe as bs else decide (a < b)

/-- Python string comparison (code-point lexicographic). -/
def strLeB (s t : String) : Bool := charsLe s.data t.data

theorem charsLe_refl (a : List Char) : charsLe a a = true := by
  induction a with
  | nil => rfl
  | cons x xs ih => simp [charsLe, ih]

theorem charsLe_total (a b : List Char) : charsLe a b || charsLe b a := by
  induction a generalizing b with
  | nil => simp [charsLe]
  | cons x xs ih =>
    cases b with
    | nil => simp [charsLe]
    | cons y ys =>
      by_cases h : x = y
      · subst h
        simpa [charsLe] using ih ys
      · have h' : y ≠ x := Ne.symm h
        simp only [charsLe, if_neg h, if_neg h']
        rcases lt_trichotomy x y with h1 | h1 | h1
        · simp [h1]
        · exact absurd h1 h
        · simp [h1]

theorem charsLe_trans (a b c : List Char) :
    charsLe a b → charsLe b c → charsLe a c := by
  induction a generalizing b c with
  | nil => intro _ _; simp [charsLe]
  | cons x xs ih =>
    intro h1 h2
    cases b with
    | nil => simp [charsLe] at h1
    | cons y ys =>
      cases c with
      | nil => simp [charsLe] at h2
      | cons z zs =>
        by_cases hxy : x = y <;> by_cases hyz : y = z
        · subst hxy; subst hyz
          simp only [charsLe, if_pos rfl] at h1 h2 ⊢
          exact ih ys zs h1 h2
        · subst hxy
          simp only [charsLe, if_pos rfl, if_neg hyz] at h1 h2 ⊢
          simpa [charsLe, if_neg hyz] using h2
        · subst hyz
          simp only [charsLe, if_neg hxy] at h1 ⊢
          simpa using h1
        · simp only [charsLe, if_neg hxy, if_neg hyz] at h1 h2
          have hlt : x < z := lt_trans (of_decide_eq_true h1) (of_decide_eq_true h2)
          have hxz : x ≠ z := ne_of_lt hlt
          simp [charsLe, if_neg hxz, hlt]

theorem charsLe_antisymm (a b : List Char) :
    charsLe a b → charsLe b a → a = b := by
  induction a generalizing b with
  | nil =>
    intro _ h2
    cases b with
    | nil => rfl
    | cons y ys => simp [charsLe] at h2
  | cons x xs ih =>
    intro h1 h2
    cases b with
    | nil => simp [charsLe] at h1
    | cons y ys =>
      by_cases hxy : x = y
      · subst hxy
        simp only [charsLe, if_pos rfl] at h1 h2
        exact congrArg (x :: ·) (ih ys h1 h2)
      · have hyx : y ≠ x := Ne.symm hxy
        simp only [charsLe, if_neg hxy, if_neg hyx] at h1 h2
        exact absurd (of_decide_eq_true h2) (lt_asymm (of_decide_eq_true h1))

theorem strLeB_total (s t : String) : strLeB s t || strLeB t s :=
  charsLe_total s.data t.data

theorem strLeB_trans (s t u : String) : strLeB s t → strLeB t u → strLeB s u :=
  charsLe_trans s.data t.data u.data

theorem strLeB_antisymm (s t : String) : strLeB s t → strLeB t s → s = t := by
  intro h1 h2
  exact String.ext (charsLe_antisymm s.data t.data h1 h2)

/-- Comparison of cell values as pandas sorts them when the column is
not of mixed kind: integers by value, strings lexicographically, nulls
(NaN/None) last.  The cross-kind int/str cases never arise in a sort
that pandas completes; the order is total so that `rowLe` is total. -/
def Value.le : Value → Value → Bool
  | Value.vInt m, Value.vInt n => decide (m ≤ n)
  | Value.vInt _, Value.vStr _ => true
  | Value.vInt _, Value.vNull => true
  | Value.vStr _, Value.vInt _ => false
  | Value.vStr a, Value.vStr b => strLeB a b
  | Value.vStr _, Value.vNull => true
  | Value.vNull, Value.vInt _ => false
  | Value.vNull, Value.vStr _ => false
  | Value.vNull, Value.vNull => true

theorem Value.le_total (a b : Value) : Value.le a b || Value.le b a := by
  cases a <;> cases b <;>
    first
      | (simp [Value.le]; omega)
      | simp [Value.le, strLeB_total]

theorem Value.le_trans (a b c : Value) :
    Value.le a b → Value.le b c → Value.le a c := by
  cases a <;> cases b <;> cases c <;>
    first
      | (simp [Value.le]; omega)
      | (simp [Value.le]; intro h1 h2; exact strLeB_trans _ _ _ h1 h2)
      | simp [Value.le]

theorem Value.le_antisymm (a b : Value) :
    Value.le a b → Value.le b a → a = b := by
  cases a <;> cases b <;> simp [Value.le]
  · omega
  · intro h1 h2; exact strLeB_antisymm _ _ h1 h2

/-- Row comparison used by `sortRows`: lexicographic over the row tuple
in the frame's own column order (the order `sort_values(by=columns)`
induces on rows). -/
def rowLe : List Value → List Value → Bool
  | [], _ => true
  | _ :: _, [] => false
  | a :: as, b :: bs => if a = b then rowLe as bs else Value.le a b

theorem rowLe_total (a b : List Value) : rowLe a b || rowLe b a := by
  induction a generalizing b with
  | nil => simp [rowLe]
  | cons x xs ih =>
    cases b with
    | nil => simp [rowLe]
    | cons y ys =>
      by_cases h : x = y
      · subst h
        simpa [rowLe] using ih ys
      · have h' : y ≠ x := Ne.symm h
        simp only [rowLe, if_neg h, if_neg h']
        exact Value.le_total x y

theorem rowLe_trans (a b c : List Value) :
    rowLe a b → rowLe b c → rowLe a c := by
  induction a generalizing b c with
  | nil => intro _ _; simp [rowLe]
  | cons x xs ih =>
    intro h1 h2
    cases b with
    | nil => simp [rowLe] at h1
    | cons y ys =>
      cases c with
      | nil => simp [rowLe] at h2
      | cons z zs =>
        by_cases hxy : x = y <;> by_cases hyz : y = z
        · subst hxy; subst hyz
          simp only [rowLe, if_pos rfl] at h1 h2 ⊢
          exact ih ys zs h1 h2
        · subst hxy
          simpa [rowLe, if_neg hyz] using h2
        · subst hyz
          simp only [rowLe, if_neg hxy] at h1 ⊢
          exact h1
        · simp only [rowLe, if_neg hxy, if_neg hyz] at h1 h2
          by_cases hxz : x = z
          · subst hxz
            exact absurd (Value.le_antisymm x y h1 h2) hxy
          · simp only [rowLe, if_neg hxz]
            exact Value.le_trans x y z h1 h2

theorem rowLe_antisymm (a b : List Value) :
    rowLe a b → rowLe b a → a = b := by
  induction a generalizing b with
  | nil =>
    intro _ h2
    cases b with
    | nil => rfl
    | cons y ys => simp [rowLe] at h2
  | cons x xs ih =>
    intro h1 h2
    cases b with
    | nil => simp [rowLe] at h1
    | cons y ys =>
      by_cases hxy : x = y
      · subst hxy
        simp only [rowLe, if_pos rfl] at h1 h2
        exact congrArg (x :: ·) (ih ys h1 h2)
      · have hyx : y ≠ x := Ne.symm hxy
        simp only [rowLe, if_neg hxy, if_neg hyx] at h1 h2
        exact absurd (Value.le_antisymm x y h1 h2) hxy

/-- Message of the column-count check (`"컬럼 수가 다릅니다. (제출: {u}, 정답: {a})"`). -/
def colCountMsg (m n : Nat) : String :=
  "컬럼 수가 다릅니다. (제출: " ++ (toString m ++ (", 정답: " ++ (toString n ++ ")")))

/-- Message of the row-count check (`"행 수가 다릅니다. (제출: {u}, 정답: {a})"`). -/
def rowCountMsg (m n : Nat) : String :=
  "행 수가 다릅니다. (제출: " ++ (toString m ++ (", 정답: " ++ (toString n ++ ")")))

/-- Success message (`"정답입니다! 🎉"`), shared by `compare_results`
and the no-reference fallback of `grade_submission`. -/
def successMsg : String := "정답입니다! 🎉"

/-- Message when normalized tables differ in values (`"결과 값이 다릅니다."`). -/
def valuesDifferMsg : String := "결과 값이 다릅니다."

/-- Message of the comparator's closing `except` (`"비교 오류: " + str(e)`). -/
def cmpErrMsg (e : String) : String := "비교 오류: " ++ e

/-- Fallback rejection message (`"결과가 없습니다."`). -/
def noResultMsg : String := "결과가 없습니다."

/-- Orchestrator error-path feedback (`"SQL 실행 오류: " + str(e)`). -/
def sqlErrMsg (e : String) : String := "SQL 실행 오류: " ++ e

/-- The text of the `TypeError` pandas raises when a sort-key column
mixes str and int; the model abstracts the quoting of Python's message
`TypeError: not supported between instances of str and int`. -/
def typeErrMsg : String := "TypeError: < not supported between instances of str and int"

/-- Python set equality of the two lower-cased column-name collections:
`set(user_cols) == set(answer_cols)`. -/
def colSetEq (x y : List String) : Prop := (∀ s ∈ x, s ∈ y) ∧ (∀ s ∈ y, s ∈ x)

instance (x y : List String) : Decidable (colSetEq x y) := by
  unfold colSetEq; infer_instance

/-- Rendering of a Python set of column names inside the mismatch
message; element order abstracted to first occurrence. -/
def setRepr (l : List String) : String := String.intercalate ", " l

/-- Message of the column-name-set check: base text plus optional
missing (`answer - user`) and extra (`user - answer`) parts. -/
def colNameMsg (userLow answerLow : List String) : String :=
  "컬럼명이 다릅니다." ++
    ((if (answerLow.dedup.filter (fun c => !(userLow.contains c))).isEmpty then ""
      else " 누락: " ++ setRepr (answerLow.dedup.filter (fun c => !(userLow.contains c)))) ++
      (if (userLow.dedup.filter (fun c => !(answerLow.contains c))).isEmpty then ""
      else " 추가: " ++ setRepr (userLow.dedup.filter (fun c => !(answerLow.contains c)))))

/-- Python `str.lower()` on a column name, modelled character-wise
(ASCII case folding; SQL column names are ASCII identifiers). -/
def pyLower (s : String) : String := ⟨s.data.map Char.toLower⟩

/-- Length of the longest row; columns of a well-formed frame all have
index below it. -/
def maxRowLen (rows : List (List Value)) : Nat :=
  rows.foldr (fun r m => max r.length m) 0

/-- Kinds (0 = int, 1 = str) of the non-null entries of column `i`;
pandas excludes missing values from sort comparisons. -/
def colKinds (rows : List (List Value)) (i : Nat) : List Nat :=
  rows.filterMap (fun r =>
    match r.get? i with
    | some (Value.vInt _) => some 0
    | some (Value.vStr _) => some 1
    | _ => none)

/-- Column `i` mixes int and str entries, making pandas row sorting
raise `TypeError`. -/
def colMixed (rows : List (List Value)) (i : Nat) : Bool :=
  let ks := colKinds rows i
  ks.any (fun k => ks.any (fun j => !(k == j)))

/-- Some sort-key column mixes incomparable kinds. -/
def hasMixedCol (rows : List (List Value)) : Bool :=
  (List.range (maxRowLen rows)).any (fun i => colMixed rows i)

/-- `df.sort_values(by=list(df.columns)).reset_index(drop=True)` on the
row list: raises (models `Except.error`) if some column mixes int and
str, otherwise sorts rows lexicographically in the frame's own column
order. -/
def sortRows (rows : List (List Value)) : Except String (List (List Value)) :=
  if hasMixedCol rows then Except.error typeErrMsg
  else Except.ok (List.insertionSort (fun a b => rowLe a b = true) rows)

/-- `sorted(columns)`: Python's alphabetical (code-point) sort. -/
def sortStrings (l : List String) : List String :=
  List.insertionSort (fun s t => strLeB s t = true) l

/-- Index of the first occurrence of `s` in `l` (pandas label lookup). -/
def indexOfCol (l : List String) (s : String) : Nat :=
  match l with
  | [] => 0
  | h :: t => if h = s then 0 else indexOfCol t s + 1

/-- Lower-case the column labels and reorder the columns alphabetically
(`df.columns = lowered; df = df[sorted(df.columns)]`), applied
to already-sorted rows; the result is what `DataFrame.equals` sees:
labels plus cell grid. -/
def normTable (df : DataFrame) (sortedRows : List (List Value)) :
    List String × List (List Value) :=
  (sortStrings (df.columns.map pyLower),
    sortedRows.map (fun r =>
      (sortStrings (df.columns.map pyLower)).map
        (fun c => r.getD (indexOfCol (df.columns.map pyLower) c) Value.vNull)))

/-- `compare_results(user_df, answer_df)` of
`backend/services/grading_service.py`: ordered checks (column count,
row count, lower-cased column-name sets), then the value comparison on
sorted, column-normalized tables; the surrounding `try/except` turns a
sorting `TypeError` into `(False, "비교 오류: ...")`. -/
def compare_results (user_df answer_df : DataFrame) : Bool × String :=
  if user_df.columns.length ≠ answer_df.columns.length then
    (false, colCountMsg user_df.columns.length answer_df.columns.length)
  else if user_df.rows.length ≠ answer_df.rows.length then
    (false, rowCountMsg user_df.rows.length answer_df.rows.length)
  else if ¬ colSetEq (user_df.columns.map pyLower) (answer_df.columns.map pyLower) then
    (false, colNameMsg (user_df.columns.map pyLower) (answer_df.columns.map pyLower))
  else
    match sortRows user_df.rows, sortRows answer_df.rows with
    | Except.error e, _ => (false, cmpErrMsg e)
    | Except.ok _, Except.error e => (false, cmpErrMsg e)
    | Except.ok us, Except.ok sa =>
      if normTable user_df us = normTable answer_df sa then (true, successMsg)
      else (false, valuesDifferMsg)

/-- The verdict structure (`SubmitResponse` of `backend/schemas/submission`):
correctness flag, user feedback, elapsed milliseconds, optional raw diff. -/
structure SubmitResponse where
  is_correct : Bool
  feedback : String
  execution_time_ms : Nat
  diff : Option String
deriving DecidableEq, Repr

/-- The record handed to the persistence collaborator by
`save_submission` (the duckdb row, minus the timestamp taken at
insertion time). -/
structure SubmissionRecord where
  session_date : String
  problem_id : String
  data_type : String
  sql_text : String
  is_correct : Bool
  feedback : String
deriving DecidableEq, Repr

/-- `save_submission`: hands `record` to the duckdb insert collaborator,
whose result is `insertOutcome`; the source's `except Exception: pass`
makes every outcome return normally. -/
def save_submission (record : SubmissionRecord) (insertOutcome : Except String Unit) :
    Except String Unit :=
  match record, insertOutcome with
  | _, Except.ok _ => Except.ok ()
  | _, Except.error _ => Except.ok ()

/-- Characters Python's `str.strip()` removes: exactly those for which
`str.isspace()` holds — the CPython whitespace table: 0x09–0x0D,
0x1C–0x1F, space, NEL 0x85, NBSP 0xA0, Ogham space 0x1680,
0x2000–0x200A, line separator 0x2028, paragraph separator 0x2029,
narrow NBSP 0x202F, medium mathematical space 0x205F, and ideographic
space 0x3000. -/
def pyWs (c : Char) : Bool :=
  decide ((9 ≤ c.toNat ∧ c.toNat ≤ 13) ∨ (28 ≤ c.toNat ∧ c.toNat ≤ 31) ∨
    c.toNat = 32 ∨ c.toNat = 133 ∨ c.toNat = 160 ∨ c.toNat = 5760 ∨
    (8192 ≤ c.toNat ∧ c.toNat ≤ 8202) ∨ c.toNat = 8232 ∨ c.toNat = 8233 ∨
    c.toNat = 8239 ∨ c.toNat = 8287 ∨ c.toNat = 12288)

/-- `sql.strip()`: remove leading and trailing whitespace. -/
def pyStrip (s : String) : String := ⟨(s.data.dropWhile pyWs).rdropWhile pyWs⟩

/-- `.rstrip(";")`: remove trailing semicolons. -/
def pyRstripSemi (s : String) : String := ⟨s.data.rdropWhile (fun c => c == ';')⟩

/-- `sql.strip().rstrip(";")` as executed on both the submitted and the
reference SQL before they reach `fetch_df`. -/
def pyProcess (sql : String) : String := pyRstripSemi (pyStrip sql)

/-- Python truthiness of `answer_sql` in `if answer_sql:` — `None` and
the empty string are falsy. -/
def answerTruthy : Option String → Bool
  | none => false
  | some s => !s.isEmpty

/-- `grade_submission(problem_id, sql, data_type, note)` of
`backend/services/grading_service.py`.  Collaborators appear as
parameters: `answerSql` is `load_problem_with_answer(...).get("answer_sql")`
(`none` when the problem file or entry is missing), `runSql` is the
Postgres `fetch_df` boundary, `insertOutcome` is what the duckdb insert
inside `save_submission` would produce, and `elapsedMs` is the value
`(time.time() - start) * 1000` would measure.  The single `try/except`
of the source catches a failure of either `fetch_df` call and produces
the `"SQL 실행 오류: ..."` verdict with `execution_time_ms = 0`. -/
def grade_submission (problem_id sql data_type session_date : String)
    (answerSql : Option String) (runSql : String → Except String DataFrame)
    (insertOutcome : Except String Unit) (elapsedMs : Nat) : SubmitResponse :=
  match runSql (pyProcess sql) with
  | Except.error e =>
    let _saved := save_submission
      ⟨session_date, problem_id, data_type, sql, false, sqlErrMsg e⟩ insertOutcome
    ⟨false, sqlErrMsg e, 0, some e⟩
  | Except.ok user_df =>
    if answerTruthy answerSql then
      match runSql (pyProcess (answerSql.getD "")) with
      | Except.error e =>
        let _saved := save_submission
          ⟨session_date, problem_id, data_type, sql, false, sqlErrMsg e⟩ insertOutcome
        ⟨false, sqlErrMsg e, 0, some e⟩
      | Except.ok answer_df =>
        let r := compare_results user_df answer_df
        let _saved := save_submission
          ⟨session_date, problem_id, data_type, sql, r.fst, r.snd⟩ insertOutcome
        ⟨r.fst, r.snd, elapsedMs, none⟩
    else
      let ic : Bool := decide (0 < user_df.rows.length)
      let fb := if ic then successMsg else noResultMsg
      let _saved := save_submission
        ⟨session_date, problem_id, data_type, sql, ic, fb⟩ insertOutcome
      ⟨ic, fb, elapsedMs, none⟩

/-- Canonical record view of a frame's rows, used to state claims about
"row multisets": each positional row becomes its list of
(lower-cased column name, value) pairs sorted by column name. -/
def recordRows (df : DataFrame) : List (List (String × Value)) :=
  df.rows.map (fun r =>
    List.insertionSort (fun a b : String × Value => strLeB a.fst b.fst = true)
      ((df.columns.map pyLower).zip r))

/-- The needle starts the haystack (character-list matching). -/
def leadsWith : List Char → List Char → Bool
  | _, [] => true
  | [], _ :: _ => false
  | h :: t, n :: ns => h == n && leadsWith t ns

/-- The needle occurs contiguously somewhere in the haystack. -/
def containsSeg : List Char → List Char → Bool
  | [], n => n.isEmpty
  | h :: t, n => leadsWith (h :: t) n || containsSeg t n

/-- `t` occurs as a substring of `s`: formalizes "the message mentions
`t`". -/
def mentions (s t : String) : Bool := containsSeg s.data t.data

theorem leadsWith_append (n y : List Char) : leadsWith (n ++ y) n = true := by
  induction n with
  | nil => cases y <;> rfl
  | cons h t ih => simp [leadsWith, ih]

theorem containsSeg_nil_needle (l : List Char) : containsSeg l [] = true := by
  cases l <;> simp [containsSeg, leadsWith]

theorem containsSeg_append_mid (x n y : List Char) :
    containsSeg (x ++ (n ++ y)) n = true := by
  induction x with
  | nil =>
    cases n with
    | nil => simpa using containsSeg_nil_needle y
    | cons h t =>
      have hl : leadsWith (h :: (t ++ y)) (h :: t) = true := by
        simpa using leadsWith_append (h :: t) y
      simp [containsSeg, hl]
  | cons h t ih =>
    simp [containsSeg, ih]

theorem mentions_of_data (s t : String) (x y : List Char)
    (h : s.data = x ++ (t.data ++ y)) : mentions s t = true := by
  unfold mentions
  rw [h]
  exact containsSeg_append_mid x t.data y

theorem append_ne_empty_left (s t : String) (h : s.data ≠ []) : s ++ t ≠ "" := by
  intro heq
  have hdata : (s ++ t).data = [] := by rw [heq]
  rw [String.data_append] at hdata
  exact h (List.append_eq_nil.mp hdata).1

theorem dropWhile_eq_self_left {p : Char → Bool} (a b : List Char)
    (h : (a ++ b).dropWhile p = a ++ b) : a.dropWhile p = a := by
  cases a with
  | nil => rfl
  | cons x xs =>
    rw [List.cons_append, List.dropWhile_cons] at h
    by_cases hp : p x = true
    · exfalso
      rw [if_pos hp] at h
      have hlen := congrArg List.length h
      have hle : ((xs ++ b).dropWhile p).length ≤ (xs ++ b).length :=
        (List.dropWhile_sublist p).length_le
      simp only [List.length_cons, List.length_append] at hlen hle
      omega
    · rw [List.dropWhile_cons, if_neg hp]

theorem rdropWhile_append_all {p : Char → Bool} (x w : List Char)
    (hw : ∀ c ∈ w, p c = true) : (x ++ w).rdropWhile p = x.rdropWhile p := by
  unfold List.rdropWhile
  rw [List.reverse_append]
  rw [List.dropWhile_append_of_pos (by intro c hc; exact hw c (List.mem_reverse.mp hc))]

theorem rdropWhile_append_semis (x : List Char) (k : Nat) :
    (x ++ List.replicate (k + 1) ';').rdropWhile pyWs = x ++ List.replicate (k + 1) ';' := by
  rw [List.replicate_succ' (n := k)]
  rw [← List.append_assoc]
  exact List.rdropWhile_concat_neg pyWs (x ++ List.replicate k ';') ';' (by decide)

theorem rdropWhile_of_rdropWhile_dropWhile {p : Char → Bool} (l : List Char)
    (h : l.rdropWhile p = l) : (l.dropWhile p).rdropWhile p = l.dropWhile p := by
  have hsfx : l.dropWhile p <:+ l := List.dropWhile_suffix p
  obtain ⟨pre, hpre⟩ := hsfx
  have hrev : l.reverse.dropWhile p = l.reverse := by
    unfold List.rdropWhile at h
    have := congrArg List.reverse h
    rwa [List.reverse_reverse] at this
  have hrev2 : ((l.dropWhile p).reverse ++ pre.reverse).dropWhile p =
      (l.dropWhile p).reverse ++ pre.reverse := by
    rw [← List.reverse_append, hpre]
    exact hrev
  have := dropWhile_eq_self_left (l.dropWhile p).reverse pre.reverse hrev2
  unfold List.rdropWhile
  rw [this, List.reverse_reverse]

theorem procList_append (s : List Char) (k : Nat) (w : List Char)
    (hw : ∀ c ∈ w, pyWs c = true)
    (hk : k = 0 ∨ s.rdropWhile pyWs = s) :
    (((s ++ (List.replicate k ';' ++ w)).dropWhile pyWs).rdropWhile pyWs).rdropWhile
        (fun c => c == ';') =
      ((s.dropWhile pyWs).rdropWhile pyWs).rdropWhile (fun c => c == ';') := by
  cases k with
  | zero =>
    simp only [List.replicate, List.nil_append]
    rw [List.dropWhile_append]
    by_cases he : (s.dropWhile pyWs).isEmpty = true
    · rw [if_pos he]
      have hwnil : w.dropWhile pyWs = [] := by
        cases w with
        | nil => rfl
        | cons c cs =>
          rw [List.dropWhile_cons, if_pos (hw c (List.mem_cons_self c cs))]
          have : ∀ x ∈ cs, pyWs x = true := fun x hx => hw x (List.mem_cons_of_mem c hx)
          exact List.dropWhile_eq_nil_iff.mpr fun x hx => this x hx
      rw [hwnil]
      have hsnil : s.dropWhile pyWs = [] := List.isEmpty_iff.mp he
      rw [hsnil]
    · rw [if_neg he]
      rw [rdropWhile_append_all _ w hw]
  | succ n =>
    rcases hk with hk0 | hs
    · exact absurd hk0 (Nat.succ_ne_zero n)
    · by_cases hnil : s = []
      · subst hnil
        simp only [List.nil_append]
        have h1 : (List.replicate (n + 1) ';' ++ w).dropWhile pyWs =
            List.replicate (n + 1) ';' ++ w := by
          rw [List.replicate_succ, List.cons_append, List.dropWhile_cons, if_neg (by decide)]
        rw [h1]
        have h2 : (List.replicate (n + 1) ';' ++ w).rdropWhile pyWs =
            List.replicate (n + 1) ';' := by
          rw [rdropWhile_append_all _ w hw]
          simpa using rdropWhile_append_semis [] n
        rw [h2]
        have h3 : (List.replicate (n + 1) ';').rdropWhile (fun c => c == ';') = [] :=
          List.rdropWhile_eq_nil_iff.mpr (by
            intro x hx
            have hx' := List.eq_of_mem_replicate hx
            simp [hx'])
        rw [h3]
        simp [List.rdropWhile]
      · have hX : s.dropWhile pyWs ≠ [] := by
          intro hq
          have hall : ∀ c ∈ s, pyWs c = true := List.dropWhile_eq_nil_iff.mp hq
          have hnil2 : s.rdropWhile pyWs = [] := List.rdropWhile_eq_nil_iff.mpr hall
          rw [hs] at hnil2
          exact hnil hnil2
        rw [List.dropWhile_append, if_neg (by simpa [List.isEmpty_iff] using hX)]
        rw [← List.append_assoc]
        rw [rdropWhile_append_all _ w hw]
        rw [rdropWhile_append_semis (s.dropWhile pyWs) n]
        rw [rdropWhile_append_all (s.dropWhile pyWs) (List.replicate (n + 1) ';') (by
          intro c hc
          have hc' := List.eq_of_mem_replicate hc
          simp [hc'])]
        rw [rdropWhile_of_rdropWhile_dropWhile s hs]

theorem pyProcess_append_suffix (sql : String) (k : Nat) (w : List Char)
    (hw : ∀ c ∈ w, pyWs c = true)
    (hk : k = 0 ∨ sql.data.rdropWhile pyWs = sql.data) :
    pyProcess (sql ++ ⟨List.replicate k ';' ++ w⟩) = pyProcess sql := by
  show (⟨(((sql ++ ⟨List.replicate k ';' ++ w⟩ : String).data.dropWhile pyWs).rdropWhile
      pyWs).rdropWhile (fun c => c == ';')⟩ : String) =
    ⟨((sql.data.dropWhile pyWs).rdropWhile pyWs).rdropWhile (fun c => c == ';')⟩
  have hd : (sql ++ ⟨List.replicate k ';' ++ w⟩ : String).data =
      sql.data ++ (List.replicate k ';' ++ w) := by
    rw [String.data_append]
  rw [hd]
  exact congrArg String.mk (procList_append sql.data k w hw hk)

/-- C3 (amended): when the submitted SQL fails to execute,
`grade_submission` returns a Verdict with `is_correct = false`,
feedback equal to the error text prefixed by `"SQL 실행 오류: "`,
`diff` carrying the raw error, and `execution_time_ms = 0` (the source
hardcodes `0` on this path instead of the measured elapsed time); no
comparison is attempted (the result is independent of `answerSql` and
of the reference execution). -/
theorem claim_C3_amended (problem_id sql data_type session_date : String)
    (answerSql : Option String) (runSql : String → Except String DataFrame)
    (ins : Except String Unit) (t : Nat) (e : String)
    (hu : runSql (pyProcess sql) = Except.error e) :
    grade_submission problem_id sql data_type session_date answerSql runSql ins t =
      ⟨false, sqlErrMsg e, 0, some e⟩ := by
  unfold grade_submission
  rw [hu]

/-- Witness for `claim_C3_amended` at a concrete failing submission. -/
theorem claim_C3_witness :
    grade_submission "p1" "SELEC 1" "pa" "2025-01-01" none
        (fun _ => Except.error "syntax error") (Except.ok ()) 7 =
      ⟨false, sqlErrMsg "syntax error", 0, some "syntax error"⟩ :=
  claim_C3_amended "p1" "SELEC 1" "pa" "2025-01-01" none
    (fun _ => Except.error "syntax error") (Except.ok ()) 7 "syntax error" rfl

/-- C3 counterexample to the claim as stated: at a failing submission
the feedback is not equal to the execution-error text (it carries the
`"SQL 실행 오류: "` prefix), and `execution_time_ms` is the constant `0`,
not the measured elapsed time (`7` here). -/
theorem claim_C3_counterexample :
    (grade_submission "p1" "SELEC 1" "pa" "2025-01-01" none
        (fun _ => Except.error "syntax error") (Except.ok ()) 7).feedback ≠ "syntax error" ∧
    (grade_submission "p1" "SELEC 1" "pa" "2025-01-01" none
        (fun _ => Except.error "syntax error") (Except.ok ()) 7).execution_time_ms = 0 ∧
    (7 : Nat) ≠ 0 := by
  refine ⟨by decide, rfl, by decide⟩

/-- C2 (amended): when the reference SQL fails to execute (and the
submitted SQL succeeded), `grade_submission` returns
`is_correct = false` with feedback `"SQL 실행 오류: " ++ e` — the very
same format a learner SQL failure produces, not a distinct
grading-system fault — `diff = some e`, `execution_time_ms = 0`, and no
comparison is performed. -/
theorem claim_C2_amended (problem_id sql data_type session_date ans : String)
    (runSql : String → Except String DataFrame) (ins : Except String Unit)
    (t : Nat) (u : DataFrame) (e : String)
    (hans : ans ≠ "")
    (hu : runSql (pyProcess sql) = Except.ok u)
    (ha : runSql (pyProcess ans) = Except.error e) :
    grade_submission problem_id sql data_type session_date (some ans) runSql ins t =
      ⟨false, sqlErrMsg e, 0, some e⟩ := by
  have htr : answerTruthy (some ans) = true := by
    cases hbool : ans.isEmpty with
    | false => simp [answerTruthy, hbool]
    | true => exact absurd ((String.isEmpty_iff ans).mp hbool) hans
  simp only [grade_submission, hu, htr, if_true, Option.getD_some, ha]

/-- Witness for `claim_C2_amended` at a concrete reference failure. -/
theorem claim_C2_witness :
    grade_submission "p1" "SELECT U" "pa" "2025-01-01" (some "SELECT A")
        (fun s => if s = "SELECT U" then Except.ok ⟨["c"], [[Value.vInt 1]]⟩
                  else Except.error "refboom")
        (Except.ok ()) 5 =
      ⟨false, sqlErrMsg "refboom", 0, some "refboom"⟩ :=
  claim_C2_amended "p1" "SELECT U" "pa" "2025-01-01" "SELECT A"
    (fun s => if s = "SELECT U" then Except.ok ⟨["c"], [[Value.vInt 1]]⟩
              else Except.error "refboom")
    (Except.ok ()) 5 ⟨["c"], [[Value.vInt 1]]⟩ "refboom" (by decide) rfl rfl

/-- C2 counterexample to the claim as stated: a reference-SQL failure
produces feedback identical to what a learner-SQL failure with the same
error produces (`"SQL 실행 오류: refboom"`), so the Verdict's feedback
does present it as the learner's SQL execution error rather than a
distinct grading-system fault. -/
theorem claim_C2_counterexample :
    (grade_submission "p1" "SELECT U" "pa" "2025-01-01" (some "SELECT A")
        (fun s => if s = "SELECT U" then Except.ok ⟨["c"], [[Value.vInt 1]]⟩
                  else Except.error "refboom")
        (Except.ok ()) 5).feedback = sqlErrMsg "refboom" ∧
    (grade_submission "p2" "BROKEN" "pa" "2025-01-01" none
        (fun s => if s = "SELECT U" then Except.ok ⟨["c"], [[Value.vInt 1]]⟩
                  else Except.error "refboom")
        (Except.ok ()) 5).feedback = sqlErrMsg "refboom" := by
  refine ⟨by decide, by decide⟩

/-- C4 (confirmed): when no reference SQL is found (`answerSql = none`)
and the submitted query executed, the Verdict's `is_correct` is `true`
exactly when the submitted query returned at least one row. -/
theorem claim_C4 (problem_id sql data_type session_date : String)
    (runSql : String → Except String DataFrame) (ins : Except String Unit)
    (t : Nat) (u : DataFrame)
    (hu : runSql (pyProcess sql) = Except.ok u) :
    (grade_submission problem_id sql data_type session_date none runSql ins t).is_correct = true
      ↔ 0 < u.rows.length := by
  unfold grade_submission
  rw [hu]
  simp [answerTruthy]

/-- Witness for `claim_C4`: one-row result is accepted. -/
theorem claim_C4_witness :
    (grade_submission "p1" "SELECT 1" "pa" "2025-01-01" none
        (fun _ => Except.ok ⟨["c"], [[Value.vInt 1]]⟩) (Except.ok ()) 3).is_correct = true
      ↔ 0 < (⟨["c"], [[Value.vInt 1]]⟩ : DataFrame).rows.length :=
  claim_C4 "p1" "SELECT 1" "pa" "2025-01-01"
    (fun _ => Except.ok ⟨["c"], [[Value.vInt 1]]⟩) (Except.ok ()) 3
    ⟨["c"], [[Value.vInt 1]]⟩ rfl

/-- C7 (confirmed): `grade_submission` is a total function into
`SubmitResponse` (every Python exception on the execution paths is
caught by the orchestrator's `try/except`, as modelled by the explicit
`match`es), `save_submission` returns normally on every insert outcome
(`except Exception: pass`), and the returned Verdict is identical
whatever the persistence outcome is — a persistence failure never
propagates and never changes the Verdict. -/
theorem claim_C7 (problem_id sql data_type session_date : String)
    (answerSql : Option String) (runSql : String → Except String DataFrame)
    (ins₁ ins₂ : Except String Unit) (t : Nat) (rec : SubmissionRecord) :
    save_submission rec ins₁ = Except.ok () ∧
    grade_submission problem_id sql data_type session_date answerSql runSql ins₁ t =
      grade_submission problem_id sql data_type session_date answerSql runSql ins₂ t := by
  constructor
  · cases ins₁ <;> rfl
  · unfold grade_submission
    cases runSql (pyProcess sql) <;> rfl

/-- C10 (amended): executing goes through
`sql.strip().rstrip(";")`, so appending a suffix made of semicolons
followed by whitespace leaves the whole returned Verdict (in particular
`is_correct` and `feedback`) unchanged, provided the SQL has no
trailing whitespace when semicolons are appended; appending whitespace
alone is always harmless.  (Mixed suffixes such as `" ;"` are not
normalized away — see the counterexample.) -/
theorem claim_C10_amended (problem_id data_type session_date : String)
    (answerSql : Option String) (runSql : String → Except String DataFrame)
    (ins : Except String Unit) (t : Nat) (sql : String) (k : Nat) (w : List Char)
    (hw : ∀ c ∈ w, pyWs c = true)
    (hk : k = 0 ∨ sql.data.rdropWhile pyWs = sql.data) :
    grade_submission problem_id (sql ++ ⟨List.replicate k ';' ++ w⟩) data_type session_date
        answerSql runSql ins t =
      grade_submission problem_id sql data_type session_date answerSql runSql ins t := by
  have hp := pyProcess_append_suffix sql k w hw hk
  unfold grade_submission
  rw [hp]

/-- Witness for `claim_C10_amended`: appending `";; "` to a
semicolon-terminated query does not change the verdict. -/
theorem claim_C10_witness :
    grade_submission "p1" ("SELECT 1;" ++ ⟨List.replicate 2 ';' ++ [' ']⟩) "pa" "2025-01-01" none
        (fun s => if s = "SELECT 1" then Except.ok ⟨["c"], [[Value.vInt 1]]⟩
                  else Except.error "err")
        (Except.ok ()) 5 =
      grade_submission "p1" "SELECT 1;" "pa" "2025-01-01" none
        (fun s => if s = "SELECT 1" then Except.ok ⟨["c"], [[Value.vInt 1]]⟩
                  else Except.error "err")
        (Except.ok ()) 5 :=
  claim_C10_amended "p1" "pa" "2025-01-01" none
    (fun s => if s = "SELECT 1" then Except.ok ⟨["c"], [[Value.vInt 1]]⟩
              else Except.error "err")
    (Except.ok ()) 5 "SELECT 1;" 2 [' '] (by decide) (Or.inr (by decide))

/-- C10 counterexample to the claim as stated: the suffix `" ;"`
consists of whitespace and semicolons, yet appending it flips the
verdict — `strip()` runs before `rstrip(";")`, so `"SELECT 1 ;"`
normalizes to `"SELECT 1 "` (trailing space kept), a different query
string than `"SELECT 1"`. -/
theorem claim_C10_counterexample :
    (∀ c ∈ (" ;" : String).data, pyWs c = true ∨ c = ';') ∧
    pyProcess ("SELECT 1" ++ " ;") ≠ pyProcess "SELECT 1" ∧
    (grade_submission "p1" "SELECT 1" "pa" "2025-01-01" none
        (fun s => if s = "SELECT 1" then Except.ok ⟨["c"], [[Value.vInt 1]]⟩
                  else Except.error "err")
        (Except.ok ()) 5).is_correct = true ∧
    (grade_submission "p1" ("SELECT 1" ++ " ;") "pa" "2025-01-01" none
        (fun s => if s = "SELECT 1" then Except.ok ⟨["c"], [[Value.vInt 1]]⟩
                  else Except.error "err")
        (Except.ok ()) 5).is_correct = false := by
  refine ⟨by decide, by decide, by decide, by decide⟩

theorem colCountMsg_ne_empty (m n : Nat) : colCountMsg m n ≠ "" :=
  append_ne_empty_left _ _ (by decide)

theorem rowCountMsg_ne_empty (m n : Nat) : rowCountMsg m n ≠ "" :=
  append_ne_empty_left _ _ (by decide)

theorem colNameMsg_ne_empty (x y : List String) : colNameMsg x y ≠ "" :=
  append_ne_empty_left _ _ (by decide)

theorem cmpErrMsg_ne_empty (e : String) : cmpErrMsg e ≠ "" :=
  append_ne_empty_left _ _ (by decide)

/-- C5 (amended): when the column counts agree and the row counts
differ, `compare_results` fails with the row-count message, which
mentions both row counts.  (When the column counts differ too, the
earlier column-count check fires first and its message does not mention
the row counts — see the counterexample.) -/
theorem claim_C5_amended (u a : DataFrame)
    (hc : u.columns.length = a.columns.length)
    (hr : u.rows.length ≠ a.rows.length) :
    compare_results u a = (false, rowCountMsg u.rows.length a.rows.length) ∧
    mentions (compare_results u a).snd (toString u.rows.length) = true ∧
    mentions (compare_results u a).snd (toString a.rows.length) = true := by
  have heq : compare_results u a = (false, rowCountMsg u.rows.length a.rows.length) := by
    unfold compare_results
    rw [if_neg (not_not_intro hc), if_pos hr]
  refine ⟨heq, ?_, ?_⟩
  · rw [heq]
    exact mentions_of_data _ _ ("행 수가 다릅니다. (제출: " : String).data
      ((", 정답: " ++ (toString a.rows.length ++ ")")) : String).data
      (by simp [rowCountMsg])
  · rw [heq]
    exact mentions_of_data _ _
      (("행 수가 다릅니다. (제출: " ++ toString u.rows.length ++ ", 정답: ") : String).data
      ((")" : String)).data (by simp [rowCountMsg])

/-- Witness for `claim_C5_amended`: 1 row vs 2 rows, same column count. -/
theorem claim_C5_witness :
    compare_results ⟨["c"], [[Value.vInt 1]]⟩ ⟨["c"], [[Value.vInt 1], [Value.vInt 2]]⟩ =
      (false, rowCountMsg 1 2) ∧
    mentions (compare_results ⟨["c"], [[Value.vInt 1]]⟩
        ⟨["c"], [[Value.vInt 1], [Value.vInt 2]]⟩).snd (toString (1 : Nat)) = true ∧
    mentions (compare_results ⟨["c"], [[Value.vInt 1]]⟩
        ⟨["c"], [[Value.vInt 1], [Value.vInt 2]]⟩).snd (toString (2 : Nat)) = true :=
  claim_C5_amended ⟨["c"], [[Value.vInt 1]]⟩ ⟨["c"], [[Value.vInt 1], [Value.vInt 2]]⟩
    rfl (by decide)

/-- C5 counterexample to the claim as stated: frames with 3 vs 5 rows
but 1 vs 2 columns — `compare_results` short-circuits at the
column-count check, so the reason mentions the column counts, not the
row count 3. -/
theorem claim_C5_counterexample :
    (⟨["a"], [[Value.vInt 1], [Value.vInt 1], [Value.vInt 1]]⟩ : DataFrame).rows.length ≠
      (⟨["a", "b"], [[Value.vInt 1, Value.vInt 1], [Value.vInt 1, Value.vInt 1],
        [Value.vInt 1, Value.vInt 1], [Value.vInt 1, Value.vInt 1],
        [Value.vInt 1, Value.vInt 1]]⟩ : DataFrame).rows.length ∧
    mentions (compare_results
        ⟨["a"], [[Value.vInt 1], [Value.vInt 1], [Value.vInt 1]]⟩
        ⟨["a", "b"], [[Value.vInt 1, Value.vInt 1], [Value.vInt 1, Value.vInt 1],
          [Value.vInt 1, Value.vInt 1], [Value.vInt 1, Value.vInt 1],
          [Value.vInt 1, Value.vInt 1]]⟩).snd (toString (3 : Nat)) = false := by
  refine ⟨by decide, by decide⟩

/-- C6 (confirmed): `compare_results` is a total Lean function — every
internal failure path of the source is caught — and when the checks
before the value comparison pass but a row sort raises (incomparable
mixed types within a column), on the submitted side or on the
reference side with the submitted side sorting cleanly, the comparator
fails closed with `equal = false` and the diagnostic
`"비교 오류: " ++ e` naming the failure.  These two cases are exactly
the internal-failure branches of `compare_results`. -/
theorem claim_C6 (u a : DataFrame) (e : String)
    (hc : u.columns.length = a.columns.length)
    (hr : u.rows.length = a.rows.length)
    (hset : colSetEq (u.columns.map pyLower) (a.columns.map pyLower))
    (herr : sortRows u.rows = Except.error e ∨
      ∃ su, sortRows u.rows = Except.ok su ∧ sortRows a.rows = Except.error e) :
    compare_results u a = (false, cmpErrMsg e) := by
  unfold compare_results
  rw [if_neg (not_not_intro hc), if_neg (not_not_intro hr), if_neg (not_not_intro hset)]
  rcases herr with herr | ⟨su, hsu, hsa⟩
  · simp only [herr]
  · simp only [hsu, hsa]

/-- Witness for `claim_C6`: the reference frame's column mixes int and
str while the submitted frame sorts cleanly; the comparator reports the
reference-side sort failure instead of raising. -/
theorem claim_C6_witness :
    compare_results ⟨["x"], [[Value.vInt 1], [Value.vInt 2]]⟩
        ⟨["x"], [[Value.vInt 1], [Value.vStr "b"]]⟩ = (false, cmpErrMsg typeErrMsg) :=
  claim_C6 ⟨["x"], [[Value.vInt 1], [Value.vInt 2]]⟩
    ⟨["x"], [[Value.vInt 1], [Value.vStr "b"]]⟩ typeErrMsg rfl rfl (by decide)
    (Or.inr ⟨[[Value.vInt 1], [Value.vInt 2]], rfl, rfl⟩)

/-- C9 (confirmed): the comparator's reason string is never empty, and
whenever the equality flag is true the reason is the success message
(the flag being false otherwise is stated disjunctively). -/
theorem claim_C9 (u a : DataFrame) :
    (compare_results u a).snd ≠ "" ∧
    ((compare_results u a).fst = false ∨ (compare_results u a).snd = successMsg) := by
  unfold compare_results
  by_cases h1 : u.columns.length = a.columns.length
  · by_cases h2 : u.rows.length = a.rows.length
    · by_cases h3 : colSetEq (u.columns.map pyLower) (a.columns.map pyLower)
      · rw [if_neg (not_not_intro h1), if_neg (not_not_intro h2), if_neg (not_not_intro h3)]
        rcases hsu : sortRows u.rows with e | su
        · simp only [hsu]
          exact ⟨cmpErrMsg_ne_empty e, Or.inl trivial⟩
        · rcases hsa : sortRows a.rows with e | sa
          · simp only [hsu, hsa]
            exact ⟨cmpErrMsg_ne_empty e, Or.inl trivial⟩
          · simp only [hsu, hsa]
            by_cases he : normTable u su = normTable a sa
            · rw [if_pos he]
              exact ⟨by decide, Or.inr rfl⟩
            · rw [if_neg he]
              exact ⟨by decide, Or.inl rfl⟩
      · rw [if_neg (not_not_intro h1), if_neg (not_not_intro h2), if_pos h3]
        exact ⟨colNameMsg_ne_empty _ _, Or.inl rfl⟩
    · rw [if_neg (not_not_intro h1), if_pos h2]
      exact ⟨rowCountMsg_ne_empty _ _, Or.inl rfl⟩
  · rw [if_pos h1]
    exact ⟨colCountMsg_ne_empty _ _, Or.inl rfl⟩

/-- C8 (confirmed): the `equal` flag of the comparator is symmetric —
every check's condition is symmetric in the two frames and the final
normalized-table test is an equality (no claim about the reason
string). -/
theorem claim_C8 (u a : DataFrame) :
    (compare_results u a).fst = (compare_results a u).fst := by
  unfold compare_results
  by_cases h1 : u.columns.length = a.columns.length
  · by_cases h2 : u.rows.length = a.rows.length
    · by_cases h3 : colSetEq (u.columns.map pyLower) (a.columns.map pyLower)
      · have h3' : colSetEq (a.columns.map pyLower) (u.columns.map pyLower) := ⟨h3.2, h3.1⟩
        rw [if_neg (not_not_intro h1), if_neg (not_not_intro h2), if_neg (not_not_intro h3),
          if_neg (not_not_intro h1.symm), if_neg (not_not_intro h2.symm),
          if_neg (not_not_intro h3')]
        rcases hsu : sortRows u.rows with e | su <;> rcases hsa : sortRows a.rows with f | sa
        · simp [hsu, hsa]
        · simp [hsu, hsa]
        · simp [hsu, hsa]
        · simp only [hsu, hsa]
          by_cases he : normTable u su = normTable a sa
          · rw [if_pos he, if_pos he.symm]
          · rw [if_neg he, if_neg (fun hh => he hh.symm)]
      · have h3' : ¬ colSetEq (a.columns.map pyLower) (u.columns.map pyLower) :=
          fun hh => h3 ⟨hh.2, hh.1⟩
        rw [if_neg (not_not_intro h1), if_neg (not_not_intro h2), if_pos h3,
          if_neg (not_not_intro h1.symm), if_neg (not_not_intro h2.symm), if_pos h3']
    · rw [if_neg (not_not_intro h1), if_pos h2, if_neg (not_not_intro h1.symm),
        if_pos (fun hh => h2 hh.symm)]
  · rw [if_pos h1, if_pos (fun hh => h1 hh.symm)]

/-- C1 (amended): `compare_results` returns `equal = true` for frames
with identical row multisets and identical column-name lists up to
case *in the same order*, provided no sort-key column mixes
incomparable kinds.  (Row sorting happens before column reordering and
uses each frame's own column order as the key sequence, so frames that
present the same records with columns in a different order can compare
unequal — see the counterexample.) -/
theorem claim_C1_amended (u a : DataFrame)
    (hcols : u.columns.map pyLower = a.columns.map pyLower)
    (hperm : u.rows.Perm a.rows)
    (hmu : hasMixedCol u.rows = false)
    (hma : hasMixedCol a.rows = false) :
    compare_results u a = (true, successMsg) := by
  have hclen : u.columns.length = a.columns.length := by
    have h := congrArg List.length hcols
    simpa using h
  have hrlen : u.rows.length = a.rows.length := hperm.length_eq
  have hset : colSetEq (u.columns.map pyLower) (a.columns.map pyLower) := by
    rw [hcols]
    exact ⟨fun s hs => hs, fun s hs => hs⟩
  have hkey : List.insertionSort (fun x y => rowLe x y = true) u.rows =
      List.insertionSort (fun x y => rowLe x y = true) a.rows := by
    haveI ht : IsTotal (List Value) (fun x y => rowLe x y = true) :=
      ⟨fun x y => by simpa using rowLe_total x y⟩
    haveI htr : IsTrans (List Value) (fun x y => rowLe x y = true) :=
      ⟨fun x y z hxy hyz => rowLe_trans x y z hxy hyz⟩
    haveI has : IsAntisymm (List Value) (fun x y => rowLe x y = true) :=
      ⟨fun x y hxy hyx => rowLe_antisymm x y hxy hyx⟩
    exact List.eq_of_perm_of_sorted
      ((List.perm_insertionSort _ u.rows).trans
        (hperm.trans (List.perm_insertionSort _ a.rows).symm))
      (List.sorted_insertionSort _ u.rows)
      (List.sorted_insertionSort _ a.rows)
  have hsu : sortRows u.rows =
      Except.ok (List.insertionSort (fun x y => rowLe x y = true) u.rows) := by
    simp [sortRows, hmu]
  have hsa : sortRows a.rows =
      Except.ok (List.insertionSort (fun x y => rowLe x y = true) a.rows) := by
    simp [sortRows, hma]
  have hnorm : normTable u (List.insertionSort (fun x y => rowLe x y = true) u.rows) =
      normTable a (List.insertionSort (fun x y => rowLe x y = true) a.rows) := by
    unfold normTable
    rw [hcols, hkey]
  unfold compare_results
  rw [if_neg (not_not_intro hclen), if_neg (not_not_intro hrlen), if_neg (not_not_intro hset)]
  simp only [hsu, hsa]
  rw [if_pos hnorm]

/-- Witness for `claim_C1_amended`: reordered rows and different column
casing (same column order) compare equal. -/
theorem claim_C1_witness :
    compare_results
        ⟨["id", "name"], [[Value.vInt 1, Value.vStr "a"], [Value.vInt 2, Value.vStr "b"]]⟩
        ⟨["ID", "NAME"], [[Value.vInt 2, Value.vStr "b"], [Value.vInt 1, Value.vStr "a"]]⟩ =
      (true, successMsg) :=
  claim_C1_amended
    ⟨["id", "name"], [[Value.vInt 1, Value.vStr "a"], [Value.vInt 2, Value.vStr "b"]]⟩
    ⟨["ID", "NAME"], [[Value.vInt 2, Value.vStr "b"], [Value.vInt 1, Value.vStr "a"]]⟩
    (by decide)
    (List.Perm.swap [Value.vInt 2, Value.vStr "b"] [Value.vInt 1, Value.vStr "a"] [])
    (by decide) (by decide)

/-- C1 counterexample to the claim as stated: the two frames hold the
same records (equal canonical record lists, hence equal row multisets)
over case-insensitively identical column sets, but list the columns in
a different order; rows are sorted before columns are aligned, so the
two sorted grids disagree and the comparator returns `equal = false`. -/
theorem claim_C1_counterexample :
    colSetEq
      ((⟨["a", "b"], [[Value.vInt 1, Value.vInt 2], [Value.vInt 2, Value.vInt 1]]⟩ :
          DataFrame).columns.map pyLower)
      ((⟨["b", "a"], [[Value.vInt 2, Value.vInt 1], [Value.vInt 1, Value.vInt 2]]⟩ :
          DataFrame).columns.map pyLower) ∧
    recordRows (⟨["a", "b"], [[Value.vInt 1, Value.vInt 2], [Value.vInt 2, Value.vInt 1]]⟩ :
        DataFrame) =
      recordRows (⟨["b", "a"], [[Value.vInt 2, Value.vInt 1], [Value.vInt 1, Value.vInt 2]]⟩ :
        DataFrame) ∧
    (compare_results
        ⟨["a", "b"], [[Value.vInt 1, Value.vInt 2], [Value.vInt 2, Value.vInt 1]]⟩
        ⟨["b", "a"], [[Value.vInt 2, Value.vInt 1], [Value.vInt 1, Value.vInt 2]]⟩).fst =
      false := by
  refine ⟨by decide, by decide, by decide⟩
